import Mathlib

/-!
Verification of the interactive-session controller in
`src/client/terminals/codeExecution/terminalCodeExecution.ts`
(class `TerminalCodeExecutionProvider`).

The embedding models the class as a pure state-transition system.  The
injected collaborators (terminal service factory, configuration service,
workspace, platform service, interpreter service) are gathered in a
`Collaborators` record of functions; every terminal interaction becomes a
`TerminalEvent` in an output trace.  A terminal is identified by the
optional resource it was requested for (`getTerminalService(resource)`),
and the REPL session registry (`replActive`, a JS `Map` keyed by
`resource?.fsPath || the empty string`) becomes an association list from
keys to handle states.

JavaScript semantics notes, each made explicit at the matching definition:
strings are the only falsy string value when empty; `??` picks the right
operand only on null or undefined; `Map.set` replaces in place, `Map.delete`
removes; string member functions used by the source are modelled
character-wise over `String.data` (paths are assumed newline-free, which the
regular expression replacement in `setCwdForFileExecution` makes exact).
-/

set_option autoImplicit false

/-- State of one entry of the `replActive` map: a promise that is either
still pending (`inFlight`, before the 1000 ms warm-up timer fires) or has
resolved with value `true` (`resolvedTrue`); `true` is the only value ever
resolved in the source (line 61). -/
inductive HandleState where
  | inFlight
  | resolvedTrue
  deriving DecidableEq, Repr

/-- An observable interaction with the terminal layer.  The first component
of each constructor is the resource whose terminal is used
(`getTerminalService(resource)` at lines 38, 47, 50, 107, 110). -/
inductive TerminalEvent where
  /-- `terminalService.sendText(text)`: raw text piped to the terminal. -/
  | sendText (resource : Option String) (text : String)
  /-- `terminalService.sendCommand(command, args)`: an executed command line. -/
  | sendCommand (resource : Option String) (command : String) (args : List String)
  /-- `terminalService.show()`: bring the terminal to the foreground. -/
  | showTerminal (resource : Option String)
  deriving DecidableEq, Repr

/-- The key of the `replActive` map: `resource?.fsPath || the empty string`
(lines 51, 63, 66).  The empty string is the only falsy JS string, so the
expression is exactly `Option.getD` with default the empty string. -/
def keyOf : Option String → String
  | none => ""
  | some p => p

/-- `Map.get` over the association-list model of the JS `Map`. -/
def lookupKey : List (String × HandleState) → String → Option HandleState
  | [], _ => none
  | p :: rest, k => if p.1 = k then some p.2 else lookupKey rest k

/-- `Map.set`: replace the binding in place when the key is present,
append otherwise. -/
def setKey : List (String × HandleState) → String → HandleState → List (String × HandleState)
  | [], k, v => [(k, v)]
  | p :: rest, k, v => if p.1 = k then (k, v) :: rest else p :: setKey rest k v

/-- `Map.delete`: remove the binding for the key. -/
def eraseKey : List (String × HandleState) → String → List (String × HandleState)
  | [], _ => []
  | p :: rest, k => if p.1 = k then eraseKey rest k else p :: eraseKey rest k

/-- Mutable instance state of `TerminalCodeExecutionProvider` (lines 20-22)
together with the close observers pushed onto the disposable registry at
lines 64-68.  Each registered observer is recorded by the resource whose
terminal it watches; its callback deletes `keyOf resource` from the map. -/
structure ControllerState where
  hasRanOutsideCurrentDrive : Bool
  replActive : List (String × HandleState)
  closeHandlers : List (Option String)
  deriving DecidableEq, Repr

/-- The settings object returned by `configurationService.getSettings`,
restricted to the fields the source reads: `pythonPath` (line 76),
`terminal.launchArgs` (line 78) and `terminal.executeInFileDir` (line 94). -/
structure PythonSettings where
  pythonPath : String
  launchArgs : List String
  executeInFileDir : Bool
  deriving DecidableEq, Repr

/-- The injected collaborators of the class, plus the two external library
functions the source calls on paths: node `path.dirname` (line 97) and the
`fileToCommandArgumentForPythonExt` quoting extension (line 110).  Both are
out-of-scope capabilities, so they are carried as abstract functions. -/
structure Collaborators where
  getSettings : Option String → PythonSettings
  getActiveInterpreter : Option String → Option String
  isWindows : Bool
  rootPath : Option String
  dirname : String → String
  quoteArg : String → String

/-- The value returned by `buildPythonExecInfo`.  Only the `command` and
`args` fields are read by this class. -/
structure PythonExecInfo where
  command : String
  args : List String
  deriving DecidableEq, Repr

/-- Modelled from the spec: `buildPythonExecInfo` (imported from
`pythonEnvironments/exec`, whose source is not in the repository snapshot)
packages the command path and the ordered argument list into an executable
descriptor without reordering them. -/
def buildPythonExecInfo (command : String) (args : List String) : PythonExecInfo :=
  ⟨command, args⟩

/-- `interpreterPath.replace(backslash-regex, slash)` at line 77: every
backslash of the string becomes a forward slash. -/
def replaceBackslashes (s : String) : String :=
  String.mk (s.data.map fun c => if c = '\\' then '/' else c)

/-- `getExecutableInfo` (lines 73-80): derive the interpreter command and
arguments.  `interpreter?.path ?? pythonSettings.pythonPath` is nullish
coalescing, hence `Option.getD`; on Windows the command has its backslashes
replaced by forward slashes; the returned argument list is the configured
launch arguments followed by the caller-supplied extra arguments. -/
def getExecutableInfo (env : Collaborators) (resource : Option String)
    (args : List String) : PythonExecInfo :=
  let pythonSettings := env.getSettings resource
  let interpreterPath := (env.getActiveInterpreter resource).getD pythonSettings.pythonPath
  let command := if env.isWindows then replaceBackslashes interpreterPath else interpreterPath
  let launchArgs := pythonSettings.launchArgs
  buildPythonExecInfo command (launchArgs ++ args)

/-- The test `drive-letter-regex.test(fileDirPath)` at line 99: the regular
expression `[a-z]:` with the ignore-case flag, unanchored, so it asks
whether some ASCII letter immediately followed by a colon occurs anywhere
in the string. -/
def hasDriveColon : List Char → Bool
  | c1 :: c2 :: rest => (c1.isAlpha && c2 == ':') || hasDriveColon (c2 :: rest)
  | _ => false

/-- String version of `hasDriveColon`. -/
def containsDriveLetterColon (s : String) : Bool :=
  hasDriveColon s.data

/-- `s.replace(colon-to-end-regex, empty)` at lines 102 and 104: on a
newline-free string this deletes everything from the first colon on,
leaving the drive prefix before the first colon (the whole string when no
colon occurs). -/
def driveOf (s : String) : String :=
  String.mk (s.data.takeWhile fun c => c != ':')

/-- `setCwdForFileExecution` (lines 92-112).  Returns the updated controller
state and the trace of terminal sends.  On Windows, when the directory
contains a drive-letter pattern, the drive prefix of the directory is
compared (strict `!==`, against `undefined` when the workspace root path is
not a string) with the drive prefix of the workspace root; on divergence or
when the sticky flag is already set, a drive-change text is sent first and
the flag is set.  A `cd` with the quoted directory is then always sent when
the directory is non-empty. -/
def setCwdForFileExecution (env : Collaborators) (st : ControllerState)
    (file : String) : ControllerState × List TerminalEvent :=
  let pythonSettings := env.getSettings (some file)
  if pythonSettings.executeInFileDir = true then
    let fileDirPath := env.dirname file
    if 0 < fileDirPath.length then
      if env.isWindows = true ∧ containsDriveLetterColon fileDirPath = true then
        let currentDrive := Option.map driveOf env.rootPath
        let fileDrive := driveOf fileDirPath
        if currentDrive ≠ some fileDrive ∨ st.hasRanOutsideCurrentDrive = true then
          ({ st with hasRanOutsideCurrentDrive := true },
            [TerminalEvent.sendText (some file) (fileDrive ++ ":"),
             TerminalEvent.sendText (some file) ("cd " ++ env.quoteArg fileDirPath)])
        else
          (st, [TerminalEvent.sendText (some file) ("cd " ++ env.quoteArg fileDirPath)])
      else
        (st, [TerminalEvent.sendText (some file) ("cd " ++ env.quoteArg fileDirPath)])
    else
      (st, [])
  else
    (st, [])

/-- The outcome of the synchronous part of `initializeRepl` for the calling
task: either an entry already existed and the call proceeds to await that
existing handle (truthy `replActive` at line 52), or no entry existed and a
fresh launch was registered. -/
inductive SyncOutcome where
  | awaitExisting
  | launched
  deriving DecidableEq, Repr

/-- The start-REPL command event issued by the launch path of
`initializeRepl` (line 58): `sendCommand(replCommandArgs.command,
replCommandArgs.args)` with the descriptor from `getExecutableInfo`
called with no extra arguments. -/
def startReplCommand (env : Collaborators) (resource : Option String) : TerminalEvent :=
  TerminalEvent.sendCommand resource
    (getExecutableInfo env resource []).command
    (getExecutableInfo env resource []).args

/-- The part of `initializeRepl` (lines 49-70) that runs before the calling
task first suspends, as one atomic step of the cooperative scheduler.

When the map has an entry for the key (line 52), nothing is mutated: the
short-circuit `replActive and await replActive` makes the call suspend on
the existing handle (outcome `awaitExisting`).  When it has none, the
promise constructor runs its executor up to the await inside
`getExecutableInfo` (lines 56-57), the handle is stored under the key
(line 63), and the close observer is pushed (lines 64-68) - all before the
`await replActive` at line 70, the first point at which another task can
run.  The deferred executor continuation and the warm-up timer are modelled
by `startReplCommand` and `launchTimerResolve`. -/
def initializeReplSyncStep (st : ControllerState) (resource : Option String) :
    ControllerState × SyncOutcome :=
  match lookupKey st.replActive (keyOf resource) with
  | some _ => (st, SyncOutcome.awaitExisting)
  | none =>
      ({ st with
          replActive := setKey st.replActive (keyOf resource) HandleState.inFlight,
          closeHandlers := st.closeHandlers ++ [resource] },
        SyncOutcome.launched)

/-- The warm-up timer of the launch path firing (line 61): after 1000 ms the
pending handle for the key resolves with `true`. -/
def launchTimerResolve (st : ControllerState) (resource : Option String) : ControllerState :=
  { st with replActive := setKey st.replActive (keyOf resource) HandleState.resolvedTrue }

/-- Trace of the scenario of two `initializeRepl` calls for the same
resource, the second arriving before the warm-up of the first completes:
call 1 runs its synchronous step, call 2 runs its synchronous step, the
executor continuation of any launching call sends its start command, the
timer resolves the handle, and each call that awaited an existing handle
shows the terminal when the handle resolves truthy (line 53) while a
launching call just returns.  The synchronous step of call 2 sends nothing
and (when an entry exists) mutates nothing, so its position relative to the
command send of call 1 does not change the trace. -/
def twoCallsBeforeWarmup (env : Collaborators) (st : ControllerState)
    (r : Option String) : ControllerState × List TerminalEvent :=
  let c1 := initializeReplSyncStep st r
  let c2 := initializeReplSyncStep c1.1 r
  let launchEvs : List TerminalEvent :=
    (match c1.2 with
      | SyncOutcome.launched => [startReplCommand env r]
      | SyncOutcome.awaitExisting => []) ++
    (match c2.2 with
      | SyncOutcome.launched => [startReplCommand env r]
      | SyncOutcome.awaitExisting => [])
  let resumeEvs : List TerminalEvent :=
    (match c1.2 with
      | SyncOutcome.awaitExisting => [TerminalEvent.showTerminal r]
      | SyncOutcome.launched => []) ++
    (match c2.2 with
      | SyncOutcome.awaitExisting => [TerminalEvent.showTerminal r]
      | SyncOutcome.launched => [])
  (launchTimerResolve c2.1 r, launchEvs ++ resumeEvs)

/-- A complete, uninterleaved run of `initializeRepl` (lines 49-70): an
existing handle is awaited and, resolving truthy, the terminal is shown
(lines 52-55); otherwise the launch registers the handle and observer,
sends the start command, and the warm-up timer resolves the handle before
the final await returns. -/
def initializeReplFull (env : Collaborators) (st : ControllerState)
    (resource : Option String) : ControllerState × List TerminalEvent :=
  let c := initializeReplSyncStep st resource
  match c.2 with
  | SyncOutcome.awaitExisting => (c.1, [TerminalEvent.showTerminal resource])
  | SyncOutcome.launched => (launchTimerResolve c.1 resource, [startReplCommand env resource])

/-- The close observer registered at lines 64-68 firing: when the terminal of
`r` closes and an observer was registered for it, the entry for
`keyOf r` is deleted from the map. -/
def fireTerminalClose (st : ControllerState) (r : Option String) : ControllerState :=
  if r ∈ st.closeHandlers then
    { st with replActive := eraseKey st.replActive (keyOf r) }
  else
    st

/-- ASCII fragment of the whitespace class stripped by the JS
`String.prototype.trim` used at line 42; the code strings of interest here
are ASCII. -/
def isJsWhitespace (c : Char) : Bool :=
  c == ' ' || c == '\t' || c == '\n' || c == '\x0d' || c == '\x0b' || c == '\x0c'

/-- `code.trim()` at line 42: strip leading and trailing whitespace. -/
def trimJs (s : String) : String :=
  String.mk (((s.data.dropWhile isJsWhitespace).reverse.dropWhile isJsWhitespace).reverse)

/-- `execute` (lines 41-48).  An empty or whitespace-only `code` is a no-op
(`!code || code.trim().length === 0`, where the empty string is the only
falsy string).  Otherwise `initializeRepl` is awaited - NOTE: the source at
line 46 calls `this.initializeRepl()` without forwarding `resource`, so the
session ensured is always the one of the empty-string key and of the
default terminal - and then `code` is sent as raw text to the terminal of
`resource`. -/
def execute (env : Collaborators) (st : ControllerState) (code : String)
    (resource : Option String) : ControllerState × List TerminalEvent :=
  if code = "" ∨ (trimJs code).length = 0 then
    (st, [])
  else
    let c := initializeReplFull env st none
    (c.1, c.2 ++ [TerminalEvent.sendText resource code])

/-- A predicate picking the start-REPL commands addressed to the terminal of
resource `r` out of a trace. -/
def isStartCommandFor (r : Option String) : TerminalEvent → Bool
  | TerminalEvent.sendCommand r2 _ _ => if r2 = r then true else false
  | _ => false

/-! Concrete collaborator fixtures used to instantiate the theorems. -/

/-- A non-Windows fixture with an active interpreter. -/
def env0 : Collaborators where
  getSettings := fun _ => { pythonPath := "python", launchArgs := [], executeInFileDir := true }
  getActiveInterpreter := fun _ => some "/usr/bin/python3"
  isWindows := false
  rootPath := none
  dirname := fun _ => ""
  quoteArg := fun s => s

/-- A Windows fixture with workspace root on drive C. -/
def envWin : Collaborators where
  getSettings := fun _ => { pythonPath := "python", launchArgs := [], executeInFileDir := true }
  getActiveInterpreter := fun _ => none
  isWindows := true
  rootPath := some "C:\\root"
  dirname := fun f => if f = "D:\\w\\a.py" then "D:\\w" else "C:\\p"
  quoteArg := fun s => s

/-- The Windows fixture with an unknown workspace root path. -/
def envNoRoot : Collaborators :=
  { envWin with rootPath := none }

/-- A Windows fixture whose workspace root names its drive in lower case
while file directories name the same drive in upper case. -/
def envC10 : Collaborators where
  getSettings := fun _ => { pythonPath := "python", launchArgs := [], executeInFileDir := true }
  getActiveInterpreter := fun _ => none
  isWindows := true
  rootPath := some "c:\\proj"
  dirname := fun _ => "C:\\proj"
  quoteArg := fun s => s

/-- A fixture with both an active interpreter and a configured fallback
interpreter path present, and non-empty configured launch arguments. -/
def env5 : Collaborators where
  getSettings := fun _ =>
    { pythonPath := "C:\\fallback\\python.exe", launchArgs := ["-O"], executeInFileDir := false }
  getActiveInterpreter := fun _ => some "/usr/bin/python3"
  isWindows := false
  rootPath := none
  dirname := fun s => s
  quoteArg := fun s => s

/-- State after launching a session for the key of resource `/k.py` and then
one for the empty default key. -/
def st7 : ControllerState :=
  (initializeReplFull env0
    (initializeReplFull env0 ⟨false, [], []⟩ (some "/k.py")).1 none).1

/-- `st7` after the terminal of `/k.py` closes and its close observer runs. -/
def st7closed : ControllerState :=
  fireTerminalClose st7 (some "/k.py")

/-! Helper lemmas. -/

theorem lookupKey_setKey_self (m : List (String × HandleState)) (k : String)
    (v : HandleState) : lookupKey (setKey m k v) k = some v := by
  induction m with
  | nil => simp [setKey, lookupKey]
  | cons p rest ih =>
    by_cases h : p.1 = k <;> simp [setKey, lookupKey, h, ih]

theorem length_pos_of_containsDriveLetterColon (s : String)
    (h : containsDriveLetterColon s = true) : 0 < s.length := by
  have hlen : s.length = s.data.length := rfl
  cases hd : s.data with
  | nil =>
    rw [containsDriveLetterColon, hd] at h
    simp [hasDriveColon] at h
  | cons a t => simp [hlen, hd]

/-- Characterization of `setCwdForFileExecution` on Windows with
execute-in-file-dir enabled and a directory containing the drive pattern. -/
theorem setCwd_windows_spec (env : Collaborators) (st : ControllerState) (f : String)
    (he : (env.getSettings (some f)).executeInFileDir = true)
    (hw : env.isWindows = true)
    (hp : containsDriveLetterColon (env.dirname f) = true) :
    setCwdForFileExecution env st f =
      if Option.map driveOf env.rootPath ≠ some (driveOf (env.dirname f)) ∨
          st.hasRanOutsideCurrentDrive = true then
        ({ st with hasRanOutsideCurrentDrive := true },
          [TerminalEvent.sendText (some f) (driveOf (env.dirname f) ++ ":"),
           TerminalEvent.sendText (some f) ("cd " ++ env.quoteArg (env.dirname f))])
      else
        (st, [TerminalEvent.sendText (some f) ("cd " ++ env.quoteArg (env.dirname f))]) := by
  have hlen : 0 < (env.dirname f).length := length_pos_of_containsDriveLetterColon _ hp
  simp only [setCwdForFileExecution, he, hw, hp, hlen, if_true, and_self, if_pos]

/-- The sticky flag is never cleared: every run of `setCwdForFileExecution`
from a state with the flag set ends with the flag set. -/
theorem setCwd_preserves_flag (env : Collaborators) (st : ControllerState) (f : String)
    (h : st.hasRanOutsideCurrentDrive = true) :
    (setCwdForFileExecution env st f).1.hasRanOutsideCurrentDrive = true := by
  simp only [setCwdForFileExecution, h, ne_eq, or_true, if_true]
  split
  · split
    · split
      · rfl
      · exact h
    · exact h
  · exact h

/-! Claim theorems. -/

/-- Claim C1 (code bug): the claim states that `executeCode` ensures a ready
session for the SAME resource key whose terminal then receives the code as
raw text.  The source at line 46 calls `this.initializeRepl()` without
forwarding `resource`, so for any resource with a non-empty path the
session ensured is the one of the empty sentinel key (and the start command
goes to the default terminal), while the text goes to the terminal of the
resource.  Evaluated at the failing input: fresh state, code `print(1)`,
resource path `/proj/a.py` - the registry gains only the empty key, the
start command is addressed to terminal `none`, and no entry for
`/proj/a.py` exists afterwards. -/
theorem execute_ignores_resource_key :
    execute env0 ⟨false, [], []⟩ "print(1)" (some "/proj/a.py") =
      (⟨false, [("", HandleState.resolvedTrue)], [none]⟩,
        [TerminalEvent.sendCommand none "/usr/bin/python3" [],
         TerminalEvent.sendText (some "/proj/a.py") "print(1)"]) ∧
    lookupKey (execute env0 ⟨false, [], []⟩ "print(1)"
        (some "/proj/a.py")).1.replActive "/proj/a.py" = none := by
  decide

/-- Claim C2: for a key with no registry entry, the synchronous step of the
first `initializeRepl` call registers the in-flight handle before the call
first suspends; a second call for the same key arriving before the warm-up
resolves observes that same handle (outcome `awaitExisting`) and mutates
nothing; and the trace of the whole two-call scenario contains exactly one
start-REPL command for the terminal of that key. -/
theorem initializeRepl_dedupes_concurrent_launch (env : Collaborators)
    (st : ControllerState) (r : Option String)
    (h : lookupKey st.replActive (keyOf r) = none) :
    (initializeReplSyncStep st r).2 = SyncOutcome.launched ∧
    lookupKey (initializeReplSyncStep st r).1.replActive (keyOf r) =
      some HandleState.inFlight ∧
    (initializeReplSyncStep (initializeReplSyncStep st r).1 r).2 =
      SyncOutcome.awaitExisting ∧
    (initializeReplSyncStep (initializeReplSyncStep st r).1 r).1 =
      (initializeReplSyncStep st r).1 ∧
    ((twoCallsBeforeWarmup env st r).2.filter (isStartCommandFor r)).length = 1 := by
  have h1 : initializeReplSyncStep st r =
      ({ st with
          replActive := setKey st.replActive (keyOf r) HandleState.inFlight,
          closeHandlers := st.closeHandlers ++ [r] }, SyncOutcome.launched) := by
    simp [initializeReplSyncStep, h]
  have h2 : initializeReplSyncStep
      ({ st with
          replActive := setKey st.replActive (keyOf r) HandleState.inFlight,
          closeHandlers := st.closeHandlers ++ [r] } : ControllerState) r =
      ({ st with
          replActive := setKey st.replActive (keyOf r) HandleState.inFlight,
          closeHandlers := st.closeHandlers ++ [r] }, SyncOutcome.awaitExisting) := by
    simp [initializeReplSyncStep, lookupKey_setKey_self]
  refine ⟨?_, ?_, ?_, ?_, ?_⟩
  · rw [h1]
  · rw [h1]
    exact lookupKey_setKey_self _ _ _
  · simp [h1, h2]
  · simp [h1, h2]
  · simp [twoCallsBeforeWarmup, h1, h2, startReplCommand, isStartCommandFor]

/-- Witness for C2 at a fresh state and resource path `/w/a.py`. -/
theorem initializeRepl_dedupes_concurrent_launch_witness :
    (initializeReplSyncStep
        (initializeReplSyncStep ⟨false, [], []⟩ (some "/w/a.py")).1
        (some "/w/a.py")).2 = SyncOutcome.awaitExisting ∧
    ((twoCallsBeforeWarmup env0 ⟨false, [], []⟩ (some "/w/a.py")).2.filter
        (isStartCommandFor (some "/w/a.py"))).length = 1 :=
  ⟨(initializeRepl_dedupes_concurrent_launch env0 ⟨false, [], []⟩ (some "/w/a.py")
      (by decide)).2.2.1,
   (initializeRepl_dedupes_concurrent_launch env0 ⟨false, [], []⟩ (some "/w/a.py")
      (by decide)).2.2.2.2⟩

/-- Claim C3: on Windows with execute-in-file-dir enabled and the workspace
root on drive C, executing a file whose directory is on drive D sends the
drive-change text `D:` and sets the sticky flag; afterwards every file
execution whose directory carries a drive pattern sends a drive-change for
the drive of that file - even when that drive is C again - and the flag,
once set, survives every further run of `setCwdForFileExecution`,
whatever its inputs (third file `f3`, unconstrained). -/
theorem drive_stickiness (env : Collaborators) (st : ControllerState)
    (f1 f2 f3 : String)
    (hw : env.isWindows = true)
    (he1 : (env.getSettings (some f1)).executeInFileDir = true)
    (he2 : (env.getSettings (some f2)).executeInFileDir = true)
    (hroot : Option.map driveOf env.rootPath = some "C")
    (hp1 : containsDriveLetterColon (env.dirname f1) = true)
    (hp2 : containsDriveLetterColon (env.dirname f2) = true)
    (hd1 : driveOf (env.dirname f1) = "D")
    (hst : st.hasRanOutsideCurrentDrive = false) :
    TerminalEvent.sendText (some f1) "D:" ∈ (setCwdForFileExecution env st f1).2 ∧
    (setCwdForFileExecution env st f1).1.hasRanOutsideCurrentDrive = true ∧
    TerminalEvent.sendText (some f2) (driveOf (env.dirname f2) ++ ":") ∈
      (setCwdForFileExecution env (setCwdForFileExecution env st f1).1 f2).2 ∧
    (setCwdForFileExecution env
      (setCwdForFileExecution env st f1).1 f2).1.hasRanOutsideCurrentDrive = true ∧
    (setCwdForFileExecution env
      (setCwdForFileExecution env
        (setCwdForFileExecution env st f1).1 f2).1 f3).1.hasRanOutsideCurrentDrive = true := by
  have e1 : setCwdForFileExecution env st f1 =
      ({ st with hasRanOutsideCurrentDrive := true },
        [TerminalEvent.sendText (some f1) "D:",
         TerminalEvent.sendText (some f1) ("cd " ++ env.quoteArg (env.dirname f1))]) := by
    have hc := setCwd_windows_spec env st f1 he1 hw hp1
    rw [hd1] at hc
    rw [if_pos (Or.inl (by rw [hroot]; decide))] at hc
    rw [hc]
    rfl
  have e2 : setCwdForFileExecution env
      ({ st with hasRanOutsideCurrentDrive := true } : ControllerState) f2 =
      ({ st with hasRanOutsideCurrentDrive := true },
        [TerminalEvent.sendText (some f2) (driveOf (env.dirname f2) ++ ":"),
         TerminalEvent.sendText (some f2) ("cd " ++ env.quoteArg (env.dirname f2))]) := by
    have hc := setCwd_windows_spec env
      ({ st with hasRanOutsideCurrentDrive := true } : ControllerState) f2 he2 hw hp2
    rw [if_pos (Or.inr rfl)] at hc
    exact hc
  refine ⟨?_, ?_, ?_, ?_, ?_⟩
  · rw [e1]
    exact List.mem_cons_self _ _
  · rw [e1]
  · rw [e1]
    rw [e2]
    exact List.mem_cons_self _ _
  · rw [e1, e2]
  · rw [e1, e2]
    exact setCwd_preserves_flag env _ f3 rfl

/-- Witness for C3: workspace root `C:\root`, first file `D:\w\a.py` on
drive D, second and third file `C:\p\b.py` back on drive C. -/
theorem drive_stickiness_witness :
    TerminalEvent.sendText (some "D:\\w\\a.py") "D:" ∈
      (setCwdForFileExecution envWin ⟨false, [], []⟩ "D:\\w\\a.py").2 ∧
    (setCwdForFileExecution envWin ⟨false, [], []⟩
      "D:\\w\\a.py").1.hasRanOutsideCurrentDrive = true ∧
    TerminalEvent.sendText (some "C:\\p\\b.py") "C:" ∈
      (setCwdForFileExecution envWin
        (setCwdForFileExecution envWin ⟨false, [], []⟩ "D:\\w\\a.py").1 "C:\\p\\b.py").2 ∧
    (setCwdForFileExecution envWin
      (setCwdForFileExecution envWin ⟨false, [], []⟩ "D:\\w\\a.py").1
      "C:\\p\\b.py").1.hasRanOutsideCurrentDrive = true ∧
    (setCwdForFileExecution envWin
      (setCwdForFileExecution envWin
        (setCwdForFileExecution envWin ⟨false, [], []⟩ "D:\\w\\a.py").1
        "C:\\p\\b.py").1 "C:\\p\\b.py").1.hasRanOutsideCurrentDrive = true :=
  drive_stickiness envWin ⟨false, [], []⟩ "D:\\w\\a.py" "C:\\p\\b.py" "C:\\p\\b.py"
    (by decide) (by decide) (by decide) (by decide) (by decide) (by decide)
    (by decide) (by decide)

/-- Claim C4: a code string that is empty or whitespace-only after trimming
makes `execute` return without any terminal interaction and without any
state change - zero sends and no registry change. -/
theorem execute_empty_code_noop (env : Collaborators) (st : ControllerState)
    (code : String) (r : Option String) (h : trimJs code = "") :
    execute env st code r = (st, []) := by
  have hlen : (trimJs code).length = 0 := by rw [h]; rfl
  simp only [execute]
  rw [if_pos (Or.inr hlen)]

/-- Witness for C4 at the three inputs named by the spec: the empty string,
three spaces, and a lone newline. -/
theorem execute_empty_code_noop_witness :
    execute env0 ⟨false, [], []⟩ "" (some "/k.py") = (⟨false, [], []⟩, []) ∧
    execute env0 ⟨false, [], []⟩ "   " (some "/k.py") = (⟨false, [], []⟩, []) ∧
    execute env0 ⟨false, [], []⟩ "\n" none = (⟨false, [], []⟩, []) :=
  ⟨execute_empty_code_noop env0 ⟨false, [], []⟩ "" (some "/k.py") (by decide),
   execute_empty_code_noop env0 ⟨false, [], []⟩ "   " (some "/k.py") (by decide),
   execute_empty_code_noop env0 ⟨false, [], []⟩ "\n" none (by decide)⟩

/-- Claim C5: the command of the resolved executable descriptor is derived
from the active interpreter path whenever one is present - the configured
`pythonPath` fallback is used only when the active interpreter is absent -
and the argument list is exactly the configured launch arguments followed
by the caller-supplied extra arguments, in that order.  (On Windows the
chosen path additionally has its backslashes normalized, see C8.) -/
theorem getExecutableInfo_precedence (env : Collaborators) (r : Option String)
    (extra : List String) (p : String) :
    (env.getActiveInterpreter r = some p →
      getExecutableInfo env r extra =
        buildPythonExecInfo (if env.isWindows then replaceBackslashes p else p)
          ((env.getSettings r).launchArgs ++ extra)) ∧
    (env.getActiveInterpreter r = none →
      getExecutableInfo env r extra =
        buildPythonExecInfo
          (if env.isWindows then replaceBackslashes (env.getSettings r).pythonPath
            else (env.getSettings r).pythonPath)
          ((env.getSettings r).launchArgs ++ extra)) := by
  constructor <;> intro h <;> simp [getExecutableInfo, h]

/-- Witness for C5: active interpreter `/usr/bin/python3` wins over the
configured fallback `C:\fallback\python.exe`; configured launch argument
`-O` comes before the extra argument `-i`. -/
theorem getExecutableInfo_precedence_witness :
    getExecutableInfo env5 (some "/w/a.py") ["-i"] =
      buildPythonExecInfo "/usr/bin/python3" ["-O", "-i"] :=
  (getExecutableInfo_precedence env5 (some "/w/a.py") ["-i"] "/usr/bin/python3").1 rfl

/-- Claim C6: on Windows with execute-in-file-dir enabled, workspace root on
drive C, no prior divergence and a file directory on drive C, no
drive-change text is sent: the run produces exactly one `cd` text with the
quoted directory, and the state is unchanged. -/
theorem no_drive_change_same_drive (env : Collaborators) (st : ControllerState)
    (f : String)
    (hw : env.isWindows = true)
    (he : (env.getSettings (some f)).executeInFileDir = true)
    (hroot : Option.map driveOf env.rootPath = some "C")
    (hp : containsDriveLetterColon (env.dirname f) = true)
    (hd : driveOf (env.dirname f) = "C")
    (hst : st.hasRanOutsideCurrentDrive = false) :
    setCwdForFileExecution env st f =
      (st, [TerminalEvent.sendText (some f) ("cd " ++ env.quoteArg (env.dirname f))]) := by
  have hc := setCwd_windows_spec env st f he hw hp
  rw [hd] at hc
  have hcond : ¬(Option.map driveOf env.rootPath ≠ some "C" ∨
      st.hasRanOutsideCurrentDrive = true) := by
    rw [hroot, hst]
    simp
  rw [if_neg hcond] at hc
  exact hc

/-- Witness for C6: file `C:\p\b.py` with directory `C:\p` under workspace
root `C:\root`. -/
theorem no_drive_change_same_drive_witness :
    setCwdForFileExecution envWin ⟨false, [], []⟩ "C:\\p\\b.py" =
      (⟨false, [], []⟩, [TerminalEvent.sendText (some "C:\\p\\b.py") "cd C:\\p"]) :=
  no_drive_change_same_drive envWin ⟨false, [], []⟩ "C:\\p\\b.py"
    (by decide) (by decide) (by decide) (by decide) (by decide) (by decide)

/-- Claim C7 (code bug): the close observer registered at lines 64-68 does
delete the registry entry of the closed key - here, after sessions exist
for `/k.py` and for the empty default key, closing the `/k.py` terminal
removes exactly that entry - but the second half of the claim fails: a
subsequent `executeCode` for `/k.py` does NOT send a fresh start-REPL
command, because line 46 calls `initializeRepl` without the resource, so
the call consults the empty default key, finds its resolved handle, and
merely reuses it (trace: show the default terminal, then send the text).
The trace of that `execute` contains no `sendCommand` at all. -/
theorem close_deletes_entry_but_execute_reuses_default_key :
    lookupKey st7.replActive "/k.py" = some HandleState.resolvedTrue ∧
    lookupKey st7closed.replActive "/k.py" = none ∧
    lookupKey st7closed.replActive "" = some HandleState.resolvedTrue ∧
    (execute env0 st7closed "x = 1" (some "/k.py")).2 =
      [TerminalEvent.showTerminal none,
       TerminalEvent.sendText (some "/k.py") "x = 1"] := by
  decide

/-- Claim C8: the command of the descriptor returned by `getExecutableInfo`
is, character for character, the resolved interpreter path with every
backslash replaced by a forward slash when the platform is Windows-like,
and the path unchanged otherwise. -/
theorem command_separator_normalization (env : Collaborators) (r : Option String)
    (extra : List String) :
    (getExecutableInfo env r extra).command.data =
      (if env.isWindows then
        ((env.getActiveInterpreter r).getD (env.getSettings r).pythonPath).data.map
          (fun c => if c = '\\' then '/' else c)
      else
        ((env.getActiveInterpreter r).getD (env.getSettings r).pythonPath).data) := by
  cases hw : env.isWindows <;>
    simp [getExecutableInfo, buildPythonExecInfo, replaceBackslashes, hw]

/-- Claim C9: on Windows with execute-in-file-dir enabled, when the
workspace root path is not a string (`rootPath = none`, so `currentDrive`
is `undefined` and the strict inequality against any file drive holds),
executing any file whose directory contains the drive-letter pattern sends
the drive-change text and sets the sticky flag - for every starting state,
including a first execution with no prior divergence. -/
theorem unknown_root_always_changes_drive (env : Collaborators)
    (st : ControllerState) (f : String)
    (hw : env.isWindows = true)
    (he : (env.getSettings (some f)).executeInFileDir = true)
    (hroot : env.rootPath = none)
    (hp : containsDriveLetterColon (env.dirname f) = true) :
    setCwdForFileExecution env st f =
      ({ st with hasRanOutsideCurrentDrive := true },
        [TerminalEvent.sendText (some f) (driveOf (env.dirname f) ++ ":"),
         TerminalEvent.sendText (some f) ("cd " ++ env.quoteArg (env.dirname f))]) := by
  have hc := setCwd_windows_spec env st f he hw hp
  have hcond : Option.map driveOf env.rootPath ≠ some (driveOf (env.dirname f)) ∨
      st.hasRanOutsideCurrentDrive = true := by
    rw [hroot]
    simp
  rw [if_pos hcond] at hc
  exact hc

/-- Witness for C9: the Windows fixture with no workspace root, file
`D:\w\a.py`, fresh state. -/
theorem unknown_root_always_changes_drive_witness :
    setCwdForFileExecution envNoRoot ⟨false, [], []⟩ "D:\\w\\a.py" =
      (⟨true, [], []⟩,
        [TerminalEvent.sendText (some "D:\\w\\a.py") "D:",
         TerminalEvent.sendText (some "D:\\w\\a.py") "cd D:\\w"]) :=
  unknown_root_always_changes_drive envNoRoot ⟨false, [], []⟩ "D:\\w\\a.py"
    (by decide) (by decide) (by decide) (by decide)

/-- Claim C10: the drive comparison strips each path at its first colon and
compares the remaining prefixes as exact, case-sensitive strings: for
workspace root `c:\proj` and file directory `C:\proj` the prefixes are `c`
and `C`, they are judged different, and a drive-change text `C:` is sent
even though both name the same drive - and the sticky flag gets set. -/
theorem drive_comparison_case_sensitive :
    driveOf "c:\\proj" = "c" ∧
    driveOf "C:\\proj" = "C" ∧
    ("c" : String) ≠ "C" ∧
    setCwdForFileExecution envC10 ⟨false, [], []⟩ "C:\\proj\\a.py" =
      (⟨true, [], []⟩,
        [TerminalEvent.sendText (some "C:\\proj\\a.py") "C:",
         TerminalEvent.sendText (some "C:\\proj\\a.py") "cd C:\\proj"]) := by
  decide

